import Mathlib

/-!
Shallow embedding of the order / payment reconciliation core of the
PRM392_FinalProject flower-shop backend (Node.js + Mongoose), covering:

  * `OrderService.createOrder`            (src/unnamed/part_008)
  * `OrderItemService.createOrderItem`    (src/unnamed/part_009)
  * `PaymentService.createPaymentLink`,
    `handlePaymentReturn`, `handlePaymentWebhook`   (src/service/paymentService.js)
  * `OrderService.updatePaymentStatus`    (src/unnamed/part_008)
  * `PaymentTimeoutService.checkAndCancelExpiredPayments`,
    `cancelExpiredOrder`                  (src/service/paymentTimeoutService.js)
  * the Express webhook route `POST /payments/webhook` (src/routes/paymentRoutes.js)

Modelling conventions:
  * MongoDB collections are association lists `List (Nat × row)`; `_id`s are `Nat`;
    fresh ids come from a `nextId` counter.
  * Timestamps (`Date.now()`, `new Date()`) are `Nat` milliseconds passed in as `now`.
  * Money is `Nat` (the `Math.round(x*100)/100` gateway round-trip is the identity
    on integral amounts).
  * `Flower.stock` is `Int`: the Mongoose schema declares `min: 0`, but the code
    decrements with an unconditional `$inc`, which can drive the value negative,
    so the model must be able to represent that state.
  * `await` I/O failure and external-gateway outcomes are injected as `Bool`
    parameters; the random `generateUniquePaymentCode()` result is a parameter.
  * A Mongoose session transaction (`startTransaction` / `commitTransaction` /
    `abortTransaction`) is modelled by threading a working state through the body
    and discarding it (returning the entry state) on the abort path.
  * A thrown JS exception is `Except.error` carrying the message.
-/

namespace FlowerShop

/-- The `status` enum of the Order schema (src/unnamed/part_007). -/
inductive OrderStatus
  | pending
  | paid
  | confirmed
  | shipped
  | delivered
  | cancelled
deriving DecidableEq

/-- The `transactionStatus` enum of the Transaction schema (src/models/Transaction.js). -/
inductive TransactionStatus
  | pending
  | completed
  | failed
  | cancelled
deriving DecidableEq

/-- Flower row (src/models/Flower.js). The schema declares `stock : min 0`, but
updates go through unvalidated `findByIdAndUpdate` with `$inc`, so stock is
modelled as `Int` to expose under-zero states the code can reach. -/
structure Flower where
  name : String
  price : Nat
  stock : Int
deriving DecidableEq

/-- Order row (src/unnamed/part_007); fields not touched by the verified
operations (proofOfDelivery, assignToShipper, certificationComplete) are omitted. -/
structure Order where
  accountId : Nat
  totalAmount : Nat
  shippingFee : Nat
  orderAt : Nat
  paidAt : Option Nat
  status : OrderStatus
  addressShip : String
  transactionId : Option Nat
  paymentCode : Option String
deriving DecidableEq

/-- OrderItem row (src/models/OrderItem.js). -/
structure OrderItem where
  flowerId : Nat
  actualPrice : Nat
  quantity : Nat
  orderId : Nat
deriving DecidableEq

/-- Transaction row (src/models/Transaction.js). -/
structure Transaction where
  fromAccount : Nat
  toAccount : Nat
  amount : Nat
  transactionStatus : TransactionStatus
  transactionDate : Nat
deriving DecidableEq

/-- The MongoDB database state: one association list per collection plus a
fresh-id counter standing for ObjectId generation. -/
structure DB where
  flowers : List (Nat × Flower)
  orders : List (Nat × Order)
  orderItems : List (Nat × OrderItem)
  transactions : List (Nat × Transaction)
  nextId : Nat
deriving DecidableEq

/-- Embeds `Model.findById`: first binding of the key in the association list. -/
def lookupTbl {α : Type} : List (Nat × α) → Nat → Option α
  | [], _ => none
  | (k, v) :: rest, k2 => if k = k2 then some v else lookupTbl rest k2

/-- Embeds `Model.findByIdAndUpdate`: rewrite the value stored under a key in place. -/
def updateTbl {α : Type} (tbl : List (Nat × α)) (k : Nat) (f : α → α) :
    List (Nat × α) :=
  tbl.map (fun p => if p.1 = k then (p.1, f p.2) else p)

/-- One requested line item of a create-order call (`orderData.items[i]`). -/
structure OrderItemReq where
  flowerId : Nat
  quantity : Nat
deriving DecidableEq

/-- The create-order request body (`orderData`). -/
structure CreateOrderData where
  items : List OrderItemReq
  addressShip : String
  shippingFee : Nat
deriving DecidableEq

/-- An element pushed onto the in-memory `orderItems` array inside
`OrderService.createOrder` before the order id exists. -/
structure PendingItem where
  flowerId : Nat
  actualPrice : Nat
  quantity : Nat
deriving DecidableEq

/-- The per-item loop of `OrderService.createOrder` (src/unnamed/part_008 lines
18–46): for each requested item, `Flower.findById` (in the session), throw if
missing, throw if `flower.stock < item.quantity`, accumulate
`totalAmount += flower.price * item.quantity`, push the price-snapshot item, and
`$inc` the stock by `-item.quantity` (an unconditional decrement, in the session).
The session working state is threaded; a thrown error aborts with no state. -/
def reserveItems : List OrderItemReq → DB → Nat → List PendingItem →
    Except String (DB × Nat × List PendingItem)
  | [], st, totalAmount, acc => .ok (st, totalAmount, acc)
  | item :: rest, st, totalAmount, acc =>
    match lookupTbl st.flowers item.flowerId with
    | none => .error ("Flower with ID " ++ toString item.flowerId ++ " not found")
    | some flower =>
      if flower.stock < (item.quantity : Int) then
        .error ("Not enough stock for flower " ++ flower.name ++ ". Available: "
          ++ toString flower.stock ++ ", Requested: " ++ toString item.quantity)
      else
        reserveItems rest
          { st with flowers := (updateTbl st.flowers item.flowerId
              (fun f => { f with stock := f.stock - (item.quantity : Int) })) }
          (totalAmount + flower.price * item.quantity)
          (acc ++ [{ flowerId := item.flowerId, actualPrice := flower.price,
                     quantity := item.quantity }])

/-- Embeds `OrderService.createOrder` (src/unnamed/part_008 lines 8–75). Runs the
reservation loop, persists the Order (status `pending`, `totalAmount` =
accumulated amount + shipping fee) and its OrderItems, then commits; any thrown
error (reservation failure, or a persistence failure injected through
`orderSaveOk = false`) reaches the catch block, which `abortTransaction`s: the
committed database is the entry state. Returns the new order id on success. -/
def createOrder (orderData : CreateOrderData) (userId : Nat) (now : Nat)
    (orderSaveOk : Bool) (st : DB) : DB × Except String Nat :=
  match reserveItems orderData.items st 0 [] with
  | .error e => (st, .error e)
  | .ok (stW, totalAmount, pendingItems) =>
    if orderSaveOk then
      let orderId := stW.nextId
      let order : Order :=
        { accountId := userId
          totalAmount := totalAmount + orderData.shippingFee
          shippingFee := orderData.shippingFee
          orderAt := now
          paidAt := none
          status := OrderStatus.pending
          addressShip := orderData.addressShip
          transactionId := none
          paymentCode := none }
      let itemRows := (List.range pendingItems.length).zip pendingItems |>.map
        (fun p => (orderId + 1 + p.1,
          { flowerId := p.2.flowerId, actualPrice := p.2.actualPrice,
            quantity := p.2.quantity, orderId := orderId : OrderItem }))
      ({ stW with
          orders := stW.orders ++ [(orderId, order)]
          orderItems := stW.orderItems ++ itemRows
          nextId := orderId + 1 + pendingItems.length },
       .ok orderId)
    else
      (st, .error "order persistence failed")

/-- Total quantity requested for one flower across the line items. -/
def qtyOf (items : List OrderItemReq) (fid : Nat) : Int :=
  ((items.filter (fun i => i.flowerId = fid)).map (fun i => (i.quantity : Int))).sum

/-- Price of a flower in a database state (0 if absent; only used on paths where
the flower exists). -/
def priceAt (st : DB) (fid : Nat) : Nat :=
  match lookupTbl st.flowers fid with
  | some f => f.price
  | none => 0

/-- The sum `Σ (snapshot price × quantity)` over the requested items, prices read from
the given state. -/
def priceSum (st : DB) (items : List OrderItemReq) : Nat :=
  (items.map (fun i => priceAt st i.flowerId * i.quantity)).sum

/-- Embeds `OrderService.updatePaymentStatus` (src/unnamed/part_008 lines 195–212):
`findById` (throw `Order not found` if absent) then `findByIdAndUpdate` setting
`paidAt = now`, `status = 'paid'`, `transactionId`. -/
def updatePaymentStatus (orderId : Nat) (transactionId : Nat) (now : Nat)
    (st : DB) : DB × Except String Unit :=
  match lookupTbl st.orders orderId with
  | none => (st, .error "Order not found")
  | some _ =>
    ({ st with orders := (updateTbl st.orders orderId
        (fun o => { o with paidAt := some now, status := OrderStatus.paid,
                           transactionId := some transactionId })) },
     .ok ())

/-- Embeds `Order.findOne` on `paymentCode = orderCode.toString()`: first order whose
`paymentCode` equals the given string, together with its id. -/
def findOrderByPaymentCode (st : DB) (code : String) : Option (Nat × Order) :=
  st.orders.find? (fun p => p.2.paymentCode = some code)

/-- Result object of `PaymentService.createPaymentLink` (the fields that do not
come verbatim from the gateway response). -/
structure CplResult where
  paymentCode : Nat
  transactionId : Nat
  orderId : Nat
  amount : Nat
deriving DecidableEq

/-- Embeds `PaymentService.createPaymentLink` (src/service/paymentService.js lines
16–94). `orderCode` stands for the random `generateUniquePaymentCode()` result
and `gatewayOk` for the outcome of the external `payOS.createPaymentLink` call.
Checks: order must exist and have status `pending` — there is no check on an
existing `paymentCode`. Then a `pending` Transaction is saved, the Order gets
`transactionId` and `paymentCode := orderCode.toString()`, and the gateway is
called; on gateway failure the catch block marks the Transaction `failed` and
rethrows (the Order update is not compensated). -/
def createPaymentLink (orderId : Nat) (orderCode : Nat) (now : Nat)
    (gatewayOk : Bool) (st : DB) : DB × Except String CplResult :=
  match lookupTbl st.orders orderId with
  | none => (st, .error "Order not found")
  | some order =>
    if order.status ≠ OrderStatus.pending then
      (st, .error "Order is not in pending status")
    else
      let txnId := st.nextId
      let txn : Transaction :=
        { fromAccount := order.accountId
          toAccount := 0
          amount := order.totalAmount
          transactionStatus := TransactionStatus.pending
          transactionDate := now }
      let st2 : DB :=
        { st with
            transactions := st.transactions ++ [(txnId, txn)]
            nextId := st.nextId + 1
            orders := (updateTbl st.orders orderId
              (fun o => { o with transactionId := some txnId,
                                 paymentCode := some (toString orderCode) })) }
      if gatewayOk then
        (st2, .ok { paymentCode := orderCode, transactionId := txnId,
                    orderId := orderId, amount := order.totalAmount })
      else
        ({ st2 with transactions := (updateTbl st2.transactions txnId
            (fun t => { t with transactionStatus := TransactionStatus.failed })) },
         .error "Payment link creation failed")

/-- Query parameters of the PayOS redirect (`handlePaymentReturn` destructures
`{ code, id, cancel, status, orderCode }`; `id` is unused). -/
structure ReturnQuery where
  code : String
  cancel : String
  status : String
  orderCode : Nat
deriving DecidableEq

/-- The `result` object built by `handlePaymentReturn`. -/
structure ReturnResult where
  success : Bool
  message : String
  orderCode : Nat
  orderId : Nat
  status : Option String
deriving DecidableEq

/-- Embeds `PaymentService.handlePaymentReturn` (src/service/paymentService.js lines
96–161). Looks the Order up by payment code (throws if absent); on
`code = '00' ∧ status = 'PAID'` marks the Transaction `completed` and calls
`updatePaymentStatus`; on `cancel = 'true'` marks the Transaction `cancelled`.
Neither branch inspects the Transaction's current status before overwriting it. -/
def handlePaymentReturn (q : ReturnQuery) (now : Nat) (st : DB) :
    DB × Except String ReturnResult :=
  match findOrderByPaymentCode st (toString q.orderCode) with
  | none => (st, .error "Order not found for payment code")
  | some (orderId, order) =>
    let base : ReturnResult :=
      { success := false, message := "Payment failed",
        orderCode := q.orderCode, orderId := orderId, status := none }
    if q.code = "00" ∧ q.status = "PAID" then
      match order.transactionId with
      | none => (st, .ok base)
      | some tid =>
        match lookupTbl st.transactions tid with
        | none => (st, .ok base)
        | some _ =>
          let st1 : DB :=
            { st with transactions := (updateTbl st.transactions tid
                (fun t => { t with transactionStatus := TransactionStatus.completed })) }
          match updatePaymentStatus orderId tid now st1 with
          | (st2, .error e) => (st2, .error e)
          | (st2, .ok _) =>
            (st2, .ok { success := true, message := "Payment successful",
                        orderCode := q.orderCode, orderId := orderId,
                        status := some "PAID" })
    else if q.cancel = "true" then
      match order.transactionId with
      | none =>
        (st, .ok { success := false, message := "Payment cancelled",
                   orderCode := q.orderCode, orderId := orderId,
                   status := some "CANCELLED" })
      | some tid =>
        match lookupTbl st.transactions tid with
        | none =>
          (st, .ok { success := false, message := "Payment cancelled",
                     orderCode := q.orderCode, orderId := orderId,
                     status := some "CANCELLED" })
        | some _ =>
          ({ st with transactions := (updateTbl st.transactions tid
              (fun t => { t with transactionStatus := TransactionStatus.cancelled })) },
           .ok { success := false, message := "Payment cancelled",
                 orderCode := q.orderCode, orderId := orderId,
                 status := some "CANCELLED" })
    else
      (st, .ok base)

/-- Webhook payload as consumed by `handlePaymentWebhook`: the destructured
`{ orderCode, status }` plus `valid`, the boolean outcome of
`payOS.verifyPaymentWebhookData(webhookData)` (the cryptographic signature
check delegated to the gateway SDK). -/
structure WebhookData where
  orderCode : Nat
  status : String
  valid : Bool
deriving DecidableEq

/-- The success return object of `handlePaymentWebhook`. -/
structure WebhookResult where
  success : Bool
  message : String
  orderCode : Nat
  status : TransactionStatus
deriving DecidableEq

/-- Embeds `PaymentService.handlePaymentWebhook` (src/service/paymentService.js lines
163–216). Step order follows the source: signature verification first (throw on
failure, before any lookup); `Order.findOne` by payment code (throw if absent);
`Transaction.findById(order.transactionId)`; if the transaction exists, on
`'PAID'` call `updatePaymentStatus` and then write `transactionStatus :=
completed`, on `'CANCELLED'` write `cancelled`, otherwise write `failed`; the
returned `status` field reads `transaction.transactionStatus` from the
in-memory document fetched before the update. When the transaction is absent
that same read dereferences `null` and throws a TypeError. -/
def handlePaymentWebhook (w : WebhookData) (now : Nat) (st : DB) :
    DB × Except String WebhookResult :=
  if w.valid = false then
    (st, .error "Invalid webhook signature")
  else
    match findOrderByPaymentCode st (toString w.orderCode) with
    | none => (st, .error "Order not found for payment code")
    | some (orderId, order) =>
      match order.transactionId with
      | none => (st, .error "TypeError: cannot read transactionStatus of null")
      | some tid =>
        match lookupTbl st.transactions tid with
        | none => (st, .error "TypeError: cannot read transactionStatus of null")
        | some txn =>
          if w.status = "PAID" then
            match updatePaymentStatus orderId tid now st with
            | (st1, .error e) => (st1, .error e)
            | (st1, .ok _) =>
              ({ st1 with transactions := (updateTbl st1.transactions tid
                  (fun t => { t with transactionStatus := TransactionStatus.completed })) },
               .ok { success := true, message := "Webhook processed successfully",
                     orderCode := w.orderCode, status := txn.transactionStatus })
          else
            ({ st with transactions := (updateTbl st.transactions tid
                (fun t => { t with transactionStatus :=
                  (if w.status = "CANCELLED" then TransactionStatus.cancelled
                   else TransactionStatus.failed) })) },
             .ok { success := true, message := "Webhook processed successfully",
                   orderCode := w.orderCode, status := txn.transactionStatus })

/-- JSON body shapes the webhook route can send. -/
inductive WebhookBody
  | success (message : String) (orderCode : Nat) (status : TransactionStatus)
  | failure (message : String)
deriving DecidableEq

/-- An HTTP response of the webhook route. -/
structure HttpResponse where
  statusCode : Nat
  body : WebhookBody
deriving DecidableEq

/-- The Express handler `POST /payments/webhook` (src/routes/paymentRoutes.js
lines 395–413): awaits `handlePaymentWebhook`, answers 200 with a success JSON
body, and catches every thrown error, answering 400 with
`{ success: false, message }`. -/
def webhookRoute (w : WebhookData) (now : Nat) (st : DB) : DB × HttpResponse :=
  match handlePaymentWebhook w now st with
  | (st1, .ok r) =>
    (st1, { statusCode := 200, body := WebhookBody.success r.message r.orderCode r.status })
  | (st1, .error e) =>
    (st1, { statusCode := 400, body := WebhookBody.failure e })

/-- The constant `PAYMENT_TIMEOUT_MINUTES * 60 * 1000` (src/service/paymentTimeoutService.js). -/
def paymentTimeoutMs : Nat := 10 * 60 * 1000

/-- The selection predicate of the reaper's `Order.find`: `status: 'pending'`,
`paymentCode` exists and is non-null, `orderAt < timeoutThreshold`. -/
def isExpired (threshold : Nat) (o : Order) : Bool :=
  decide (o.status = OrderStatus.pending) && o.paymentCode.isSome
    && decide (o.orderAt < threshold)

/-- Embeds `PaymentTimeoutService.cancelExpiredOrder` (src/service/paymentTimeoutService.js
lines 54–72), applied to the order document captured by the tick's `find`:
`findByIdAndUpdate(order._id, { status: 'cancelled' })` — an unconditional
update with no `status: 'pending'` predicate — then, if the captured document
had a `transactionId`, set that Transaction `cancelled`. -/
def cancelExpiredOrder (orderId : Nat) (transactionId : Option Nat) (st : DB) : DB :=
  let st1 : DB :=
    { st with orders := (updateTbl st.orders orderId
        (fun o => { o with status := OrderStatus.cancelled })) }
  match transactionId with
  | none => st1
  | some tid =>
    { st1 with transactions := (updateTbl st1.transactions tid
        (fun t => { t with transactionStatus := TransactionStatus.cancelled })) }

/-- Embeds `PaymentTimeoutService.checkAndCancelExpiredPayments`
(src/service/paymentTimeoutService.js lines 30–52): compute the threshold,
`find` the expired pending orders, then loop `cancelExpiredOrder` over the
captured documents. The `find` and the per-order updates are separate awaited
database operations; `interfere` models writes committed by concurrent requests
between the `find` and the update loop (`interfere = id` is the
no-concurrency/atomic-tick reading). -/
def checkAndCancelExpiredPayments (now : Nat) (interfere : DB → DB) (st : DB) : DB :=
  let threshold := now - paymentTimeoutMs
  let expired := st.orders.filter (fun p => isExpired threshold p.2)
  expired.foldl (fun acc p => cancelExpiredOrder p.1 p.2.transactionId acc)
    (interfere st)

/-- The read/check phase of `OrderItemService.createOrderItem`
(src/unnamed/part_009 lines 6–23): `Flower.findById` (throw if missing),
`Order.findById` (throw if missing), throw if `flower.stock < quantity`;
returns the fetched flower's price (the snapshot used later). No session and
no conditional update is involved. -/
def createOrderItemCheck (flowerId quantity orderId : Nat) (st : DB) :
    Except String Nat :=
  match lookupTbl st.flowers flowerId with
  | none => .error "Flower not found"
  | some flower =>
    match lookupTbl st.orders orderId with
    | none => .error "Order not found"
    | some _ =>
      if flower.stock < (quantity : Int) then
        .error ("Not enough stock. Available: " ++ toString flower.stock
          ++ ", Requested: " ++ toString quantity)
      else
        .ok flower.price

/-- The write phase of `OrderItemService.createOrderItem` (src/unnamed/part_009
lines 25–36): save the OrderItem, then `findByIdAndUpdate(flowerId,
{ $inc: { stock: -quantity } })` — an unconditional decrement with no stock
condition. -/
def createOrderItemCommit (flowerId quantity orderId actualPrice : Nat)
    (st : DB) : DB :=
  { st with
      orderItems := st.orderItems ++
        [(st.nextId, { flowerId := flowerId, actualPrice := actualPrice,
                       quantity := quantity, orderId := orderId : OrderItem })]
      flowers := (updateTbl st.flowers flowerId
        (fun f => { f with stock := f.stock - (quantity : Int) }))
      nextId := st.nextId + 1 }

/-- Sequential `OrderItemService.createOrderItem`: check phase then write phase
on the same state. -/
def createOrderItem (flowerId quantity orderId : Nat) (st : DB) :
    DB × Except String Unit :=
  match createOrderItemCheck flowerId quantity orderId st with
  | .error e => (st, .error e)
  | .ok price => (createOrderItemCommit flowerId quantity orderId price st, .ok ())

/-- Two concurrent `createOrderItem` calls under the interleaving
read₁ read₂ write₁ write₂ (both checks run against the initial state before
either decrement lands — possible because the service uses no session,
transaction, or conditional update). `some st'` means both attempts succeeded. -/
def raceTwoReserve (f1 q1 o1 f2 q2 o2 : Nat) (st : DB) : Option DB :=
  match createOrderItemCheck f1 q1 o1 st, createOrderItemCheck f2 q2 o2 st with
  | .ok p1, .ok p2 =>
    some (createOrderItemCommit f2 q2 o2 p2 (createOrderItemCommit f1 q1 o1 p1 st))
  | _, _ => none

/-! Concrete database fixtures used by the closed evaluation theorems. -/

/-- An order already reconciled as paid: `status = paid`, `paidAt = 100`,
linked to Transaction 1, payment code `"123"`. -/
def orderPaid : Order :=
  { accountId := 7, totalAmount := 150000, shippingFee := 0, orderAt := 0,
    paidAt := some 100, status := OrderStatus.paid, addressShip := "HCMC",
    transactionId := some 1, paymentCode := some "123" }

/-- A completed Transaction (id 1 in `dbPaid`). -/
def txnCompleted : Transaction :=
  { fromAccount := 7, toAccount := 0, amount := 150000,
    transactionStatus := TransactionStatus.completed, transactionDate := 50 }

/-- State after a successful payment: Order 1 `paid`, Transaction 1 `completed`. -/
def dbPaid : DB :=
  { flowers := [(1, { name := "Rose", price := 70000, stock := 3 })],
    orders := [(1, orderPaid)],
    orderItems := [],
    transactions := [(1, txnCompleted)],
    nextId := 10 }

/-- The PayOS cancel-redirect query for payment code 123. -/
def qCancel : ReturnQuery :=
  { code := "01", cancel := "true", status := "CANCELLED", orderCode := 123 }

/-- A signature-valid PAID webhook for payment code 123. -/
def wPaid : WebhookData := { orderCode := 123, status := "PAID", valid := true }

/-- A catalogue state with one flower (price 70000, stock 5) and no orders. -/
def dbStock : DB :=
  { flowers := [(1, { name := "Rose", price := 70000, stock := 5 })],
    orders := [], orderItems := [], transactions := [], nextId := 10 }

/-- A 2-unit request for flower 1 with shipping fee 10000. -/
def orderDataOk : CreateOrderData :=
  { items := [{ flowerId := 1, quantity := 2 }], addressShip := "HCMC",
    shippingFee := 10000 }

/-- A 2-item request whose second line exceeds the remaining stock. -/
def orderDataBad : CreateOrderData :=
  { items := [{ flowerId := 1, quantity := 2 }, { flowerId := 1, quantity := 9 }],
    addressShip := "HCMC", shippingFee := 10000 }

/-- A pending order that already carries payment code `"111"` (id 1 in
`dbPending`). -/
def orderPendingWithCode : Order :=
  { accountId := 7, totalAmount := 150000, shippingFee := 0, orderAt := 0,
    paidAt := none, status := OrderStatus.pending, addressShip := "HCMC",
    transactionId := none, paymentCode := some "111" }

/-- State with a pending, already-coded order and no transactions. -/
def dbPending : DB :=
  { flowers := [(1, { name := "Rose", price := 70000, stock := 3 })],
    orders := [(1, orderPendingWithCode)],
    orderItems := [], transactions := [], nextId := 10 }

/-- A pending order whose payment link exists: payment code `"123"`, linked to
the still-`pending` Transaction 1 (id 1 in `dbAwaitingPayment`). -/
def orderAwaiting : Order :=
  { accountId := 7, totalAmount := 150000, shippingFee := 0, orderAt := 0,
    paidAt := none, status := OrderStatus.pending, addressShip := "HCMC",
    transactionId := some 1, paymentCode := some "123" }

/-- A pending Transaction (id 1 in `dbAwaitingPayment`). -/
def txnPending : Transaction :=
  { fromAccount := 7, toAccount := 0, amount := 150000,
    transactionStatus := TransactionStatus.pending, transactionDate := 50 }

/-- State awaiting the first payment outcome: Order 1 `pending` with a link,
Transaction 1 `pending`. -/
def dbAwaitingPayment : DB :=
  { flowers := [(1, { name := "Rose", price := 70000, stock := 3 })],
    orders := [(1, orderAwaiting)],
    orderItems := [],
    transactions := [(1, txnPending)],
    nextId := 10 }

/-- An expired pending order: `orderAt = 0`, payment code set, no transaction
(id 1 in `dbExpired`). -/
def orderExpired : Order :=
  { accountId := 7, totalAmount := 150000, shippingFee := 0, orderAt := 0,
    paidAt := none, status := OrderStatus.pending, addressShip := "HCMC",
    transactionId := none, paymentCode := some "123" }

/-- State holding only the expired pending order. -/
def dbExpired : DB :=
  { flowers := [], orders := [(1, orderExpired)], orderItems := [],
    transactions := [], nextId := 10 }

/-- A concurrent reconcile landing between the reaper's `find` and its update
loop: Order 1 becomes `paid`. -/
def markOrderOnePaid (st : DB) : DB :=
  { st with orders := (updateTbl st.orders 1
      (fun o => { o with status := OrderStatus.paid })) }

/-- The pending order receiving the raced order items (id 5 in `dbRace`). -/
def orderRace : Order :=
  { accountId := 7, totalAmount := 0, shippingFee := 0, orderAt := 0,
    paidAt := none, status := OrderStatus.pending, addressShip := "HCMC",
    transactionId := none, paymentCode := none }

/-- A one-unit-stock state for the reservation race: flower 1 has `stock = 1`,
order 5 is pending. -/
def dbRace : DB :=
  { flowers := [(1, { name := "Rose", price := 10, stock := 1 })],
    orders := [(5, orderRace)],
    orderItems := [], transactions := [], nextId := 20 }

/-- A webhook delivery whose signature verification fails. -/
def wInvalid : WebhookData := { orderCode := 123, status := "PAID", valid := false }

/-! ## Association-list lemmas -/

theorem lookupTbl_updateTbl {α : Type} (tbl : List (Nat × α)) (k j : Nat)
    (f : α → α) :
    lookupTbl (updateTbl tbl k f) j =
      if j = k then (lookupTbl tbl j).map f else lookupTbl tbl j := by
  induction tbl with
  | nil => simp [updateTbl, lookupTbl]
  | cons p rest ih =>
    obtain ⟨k1, v⟩ := p
    have hu : updateTbl ((k1, v) :: rest) k f
        = (if k1 = k then (k1, f v) else (k1, v)) :: updateTbl rest k f := rfl
    rw [hu]
    by_cases h1 : k1 = k
    · rw [if_pos h1]
      subst h1
      by_cases h2 : k1 = j
      · subst h2
        simp [lookupTbl, ih]
      · simp [lookupTbl, h2, Ne.symm h2, ih]
    · rw [if_neg h1]
      by_cases h2 : k1 = j
      · subst h2
        simp [lookupTbl, h1, ih]
      · simp [lookupTbl, h1, h2, ih]

theorem lookupTbl_append {α : Type} (t1 t2 : List (Nat × α)) (k : Nat)
    (h : lookupTbl t1 k = none) :
    lookupTbl (t1 ++ t2) k = lookupTbl t2 k := by
  induction t1 with
  | nil => simp
  | cons p rest ih =>
    obtain ⟨k1, v⟩ := p
    by_cases h1 : k1 = k <;> simp_all [lookupTbl]

theorem mem_of_lookupTbl {α : Type} (tbl : List (Nat × α)) (k : Nat) (v : α)
    (h : lookupTbl tbl k = some v) : (k, v) ∈ tbl := by
  induction tbl with
  | nil => simp [lookupTbl] at h
  | cons p rest ih =>
    obtain ⟨k1, v1⟩ := p
    by_cases h1 : k1 = k <;> simp_all [lookupTbl]

theorem lookupTbl_eq_of_mem_nodup {α : Type} (tbl : List (Nat × α)) (k : Nat)
    (v w : α) (hnd : (tbl.map Prod.fst).Nodup) (hmem : (k, w) ∈ tbl)
    (h : lookupTbl tbl k = some v) : w = v := by
  induction tbl with
  | nil => simp at hmem
  | cons p rest ih =>
    obtain ⟨k1, v1⟩ := p
    simp only [List.map_cons, List.nodup_cons] at hnd
    rcases List.mem_cons.mp hmem with hh | ht
    · have hk : k = k1 := congrArg Prod.fst hh
      have hv : w = v1 := congrArg Prod.snd hh
      subst hk
      simp [lookupTbl] at h
      exact hv.trans h
    · by_cases h1 : k1 = k
      · subst h1
        exact absurd (List.mem_map.mpr ⟨(k1, w), ht, rfl⟩) hnd.1
      · simp [lookupTbl, h1] at h
        exact ih hnd.2 ht h

theorem updatePaymentStatus_transactions (orderId tid now : Nat) (st : DB) :
    (updatePaymentStatus orderId tid now st).1.transactions = st.transactions := by
  unfold updatePaymentStatus
  cases lookupTbl st.orders orderId <;> simp

theorem qtyOf_nil (fid : Nat) : qtyOf [] fid = 0 := rfl

theorem qtyOf_cons (i : OrderItemReq) (rest : List OrderItemReq) (fid : Nat) :
    qtyOf (i :: rest) fid =
      (if i.flowerId = fid then (i.quantity : Int) else 0) + qtyOf rest fid := by
  unfold qtyOf
  by_cases h : i.flowerId = fid <;> simp [List.filter_cons, h]

theorem priceAt_update_stock (st : DB) (k : Nat) (g : Flower → Flower)
    (hg : ∀ f, (g f).price = f.price) (fid : Nat) :
    priceAt { st with flowers := updateTbl st.flowers k g } fid
      = priceAt st fid := by
  unfold priceAt
  simp only [lookupTbl_updateTbl]
  by_cases h : fid = k
  · rw [if_pos h]
    cases lookupTbl st.flowers fid <;> simp [hg]
  · rw [if_neg h]

theorem priceSum_update_stock (st : DB) (k : Nat) (g : Flower → Flower)
    (hg : ∀ f, (g f).price = f.price) (items : List OrderItemReq) :
    priceSum { st with flowers := updateTbl st.flowers k g } items
      = priceSum st items := by
  unfold priceSum
  induction items with
  | nil => rfl
  | cons i rest ih =>
    simp only [List.map_cons, List.sum_cons, ih]
    rw [priceAt_update_stock st k g hg]

theorem priceSum_cons (st : DB) (i : OrderItemReq) (rest : List OrderItemReq) :
    priceSum st (i :: rest)
      = priceAt st i.flowerId * i.quantity + priceSum st rest := by
  simp [priceSum, List.map_cons, List.sum_cons]

/-- Invariant of the reservation loop: a successful pass leaves every other
collection untouched, adds `Σ price × quantity` (prices read from the entry
state) to the accumulator, and decrements each flower's stock by exactly the
total quantity requested for it. -/
theorem reserveItems_ok_spec (items : List OrderItemReq) :
    ∀ (st : DB) (tot : Nat) (acc : List PendingItem) (stW : DB) (tot2 : Nat)
      (acc2 : List PendingItem),
      reserveItems items st tot acc = Except.ok (stW, tot2, acc2) →
      stW.orders = st.orders ∧ stW.orderItems = st.orderItems ∧
      stW.transactions = st.transactions ∧ stW.nextId = st.nextId ∧
      tot2 = tot + priceSum st items ∧
      ∀ fid, lookupTbl stW.flowers fid =
        (lookupTbl st.flowers fid).map
          (fun f => { f with stock := f.stock - qtyOf items fid }) := by
  induction items with
  | nil =>
    intro st tot acc stW tot2 acc2 h
    unfold reserveItems at h
    injection h with h1
    injection h1 with hst h2
    injection h2 with htot hacc
    subst hst
    subst htot
    refine ⟨rfl, rfl, rfl, rfl, by simp [priceSum], ?_⟩
    intro fid
    cases hf : lookupTbl st.flowers fid with
    | none => simp
    | some f => cases f; simp [qtyOf]
  | cons item rest ih =>
    intro st tot acc stW tot2 acc2 h
    unfold reserveItems at h
    split at h
    · exact absurd h (by intro hc; injection hc)
    · next flower hflower =>
      split at h
      · exact absurd h (by intro hc; injection hc)
      · next hstock =>
        obtain ⟨ho, hoi, htr, hni, htot, hfl⟩ := ih _ _ _ _ _ _ h
        have hprice : ∀ f : Flower,
            ((fun f : Flower =>
              { f with stock := f.stock - (item.quantity : Int) }) f).price
              = f.price := fun f => rfl
        refine ⟨ho, hoi, htr, hni, ?_, ?_⟩
        · rw [htot, priceSum_update_stock st item.flowerId _ hprice rest,
            priceSum_cons]
          have hpa : priceAt st item.flowerId = flower.price := by
            simp [priceAt, hflower]
          rw [hpa]
          omega
        · intro fid
          rw [hfl fid]
          simp only [lookupTbl_updateTbl, qtyOf_cons]
          by_cases hf : fid = item.flowerId
          · rw [if_pos hf]
            rw [if_pos hf.symm]
            cases lookupTbl st.flowers fid with
            | none => rfl
            | some f =>
              cases f
              simp [Int.sub_sub]
          · rw [if_neg hf]
            rw [if_neg (Ne.symm hf)]
            simp

theorem cancelExpiredOrder_orders (oid : Nat) (tid : Option Nat) (st : DB)
    (j : Nat) :
    lookupTbl (cancelExpiredOrder oid tid st).orders j =
      if j = oid then
        (lookupTbl st.orders j).map
          (fun o => { o with status := OrderStatus.cancelled })
      else lookupTbl st.orders j := by
  unfold cancelExpiredOrder
  cases tid <;> simp [lookupTbl_updateTbl]

theorem foldl_cancel_orders (l : List (Nat × Order)) (acc : DB) (j : Nat) :
    lookupTbl
      (l.foldl (fun a p => cancelExpiredOrder p.1 p.2.transactionId a) acc).orders
      j =
      if j ∈ l.map Prod.fst then
        (lookupTbl acc.orders j).map
          (fun o => { o with status := OrderStatus.cancelled })
      else lookupTbl acc.orders j := by
  induction l generalizing acc with
  | nil => simp
  | cons p t ih =>
    simp only [List.foldl_cons, List.map_cons, List.mem_cons]
    rw [ih, cancelExpiredOrder_orders]
    by_cases h1 : j = p.1
    · rw [if_pos h1, if_pos (Or.inl h1)]
      by_cases h2 : j ∈ t.map Prod.fst
      · rw [if_pos h2]
        cases lookupTbl acc.orders j with
        | none => rfl
        | some o => cases o; rfl
      · rw [if_neg h2]
    · rw [if_neg h1]
      by_cases h2 : j ∈ t.map Prod.fst
      · rw [if_pos h2, if_pos (Or.inr h2)]
      · rw [if_neg h2, if_neg (by tauto)]

/-! ## Claim theorems -/

/-- C1: claimed — once a Transaction is `completed`, a CANCELLED reconcile
outcome leaves it `completed`. The code has no such guard: in `dbPaid`
Transaction 1 is `completed`, yet the cancel redirect (`cancel = 'true'`)
unconditionally overwrites its status to `cancelled`. -/
theorem return_cancel_overwrites_completed :
    (lookupTbl dbPaid.transactions 1).map Transaction.transactionStatus
        = some TransactionStatus.completed ∧
    (lookupTbl (handlePaymentReturn qCancel 500 dbPaid).1.transactions 1).map
        Transaction.transactionStatus = some TransactionStatus.cancelled :=
  ⟨rfl, rfl⟩

/-- C2: claimed — a redelivered PAID reconcile for an already-`completed`
Transaction performs no further mutation and returns an "already completed"
result. The code short-circuits nowhere: redelivering the PAID webhook to
`dbPaid` (Order 1 `paid` with `paidAt = 100`, Transaction 1 `completed`)
re-runs `updatePaymentStatus`, overwriting `paidAt` to the new time 200, and
returns the ordinary success message. -/
theorem webhook_paid_redelivery_mutates :
    (lookupTbl dbPaid.orders 1).map Order.paidAt = some (some 100) ∧
    (handlePaymentWebhook wPaid 200 dbPaid).2 =
      Except.ok { success := true, message := "Webhook processed successfully",
                  orderCode := 123, status := TransactionStatus.completed } ∧
    (lookupTbl (handlePaymentWebhook wPaid 200 dbPaid).1.orders 1).map Order.paidAt
      = some (some 200) :=
  ⟨rfl, rfl, rfl⟩

/-- C4: claimed — at most `N` units are ever reserved on a flower with
`stock = N`, because the check-then-decrement is one atomic conditional update.
The code performs a plain read, an application-level check, and then an
unconditional `$inc` decrement: interleaving two `createOrderItem` calls
(both reads before both writes) on flower 1 with `stock = 1` lets both
one-unit reservations succeed, persists 2 order items, and leaves
`stock = -1`, below the `min: 0` the Flower schema itself declares. -/
theorem race_two_reservations_over_reserve :
    (lookupTbl dbRace.flowers 1).map Flower.stock = some 1 ∧
    (raceTwoReserve 1 1 5 1 1 5 dbRace).map
        (fun st => (lookupTbl st.flowers 1).map Flower.stock) = some (some (-1)) ∧
    (raceTwoReserve 1 1 5 1 1 5 dbRace).map
        (fun st => st.orderItems.length) = some 2 :=
  ⟨rfl, rfl, rfl⟩

/-- C3: `createOrder` is all-or-nothing — whenever it throws (a line item's
flower missing, insufficient stock, or a failing persistence step), the
committed database is exactly the entry state: every in-session stock
decrement is rolled back and no Order or OrderItem row is persisted. -/
theorem createOrder_error_rolls_back (orderData : CreateOrderData)
    (userId now : Nat) (orderSaveOk : Bool) (st : DB) (e : String)
    (h : (createOrder orderData userId now orderSaveOk st).2 = Except.error e) :
    (createOrder orderData userId now orderSaveOk st).1 = st := by
  unfold createOrder at h ⊢
  cases hr : reserveItems orderData.items st 0 [] with
  | error e2 => simp [hr]
  | ok r =>
    obtain ⟨stW, tot, acc⟩ := r
    cases orderSaveOk with
    | true => simp [hr] at h
    | false => simp [hr]

/-- C3 witness: requesting 2 then 9 units of flower 1 (stock 5) fails on the
second line item, and the database is left exactly as before the call. -/
theorem createOrder_error_rolls_back_witness :
    (createOrder orderDataBad 7 100 true dbStock).1 = dbStock :=
  createOrder_error_rolls_back orderDataBad 7 100 true dbStock
    "Not enough stock for flower Rose. Available: 3, Requested: 9" rfl

/-- C6 counterexample: in `dbPending`, Order 1 is `pending` and already carries
payment code `"111"`, yet a further `createPaymentLink` call succeeds — it
returns the fresh code 222, overwrites the order's `paymentCode` with `"222"`,
and appends a new Transaction — where the claim demands a
`DuplicatePaymentLink` failure with no new code and no new Transaction. -/
theorem createPaymentLink_duplicate_succeeds :
    (lookupTbl dbPending.orders 1).map Order.paymentCode = some (some "111") ∧
    (lookupTbl dbPending.orders 1).map Order.status = some OrderStatus.pending ∧
    (createPaymentLink 1 222 50 true dbPending).2 =
      Except.ok { paymentCode := 222, transactionId := 10,
                  orderId := 1, amount := 150000 } ∧
    (lookupTbl (createPaymentLink 1 222 50 true dbPending).1.orders 1).map
        Order.paymentCode = some (some "222") ∧
    (createPaymentLink 1 222 50 true dbPending).1.transactions.length
      = dbPending.transactions.length + 1 :=
  ⟨rfl, rfl, rfl, rfl, rfl⟩

/-- C6 amended: `createPaymentLink` checks only that the order exists and is
`pending` — it never inspects an existing `paymentCode`. For any still-pending
order (coded or not), a call with a successful gateway returns the new code,
overwrites the order's `paymentCode`, and appends a new Transaction; under
these hypotheses the only possible failure is the gateway error, so no
`DuplicatePaymentLink` failure exists. -/
theorem createPaymentLink_pending_always_succeeds (orderId orderCode now : Nat)
    (st : DB) (o : Order) (hfound : lookupTbl st.orders orderId = some o)
    (hpending : o.status = OrderStatus.pending) :
    (createPaymentLink orderId orderCode now true st).2 =
      Except.ok { paymentCode := orderCode, transactionId := st.nextId,
                  orderId := orderId, amount := o.totalAmount } ∧
    (lookupTbl (createPaymentLink orderId orderCode now true st).1.orders
        orderId).map Order.paymentCode = some (some (toString orderCode)) ∧
    (createPaymentLink orderId orderCode now true st).1.transactions.length
      = st.transactions.length + 1 ∧
    (∀ e g, (createPaymentLink orderId orderCode now g st).2 = Except.error e →
      e = "Payment link creation failed") := by
  refine ⟨?_, ?_, ?_, ?_⟩ <;>
    simp [createPaymentLink, hfound, hpending, lookupTbl_updateTbl]

/-- C6 amended witness: the already-coded pending Order 1 of `dbPending`
accepts a second link with code 222. -/
theorem createPaymentLink_pending_always_succeeds_witness :
    (createPaymentLink 1 222 50 true dbPending).2 =
      Except.ok { paymentCode := 222, transactionId := 10,
                  orderId := 1, amount := 150000 } ∧
    (lookupTbl (createPaymentLink 1 222 50 true dbPending).1.orders 1).map
        Order.paymentCode = some (some "222") ∧
    (createPaymentLink 1 222 50 true dbPending).1.transactions.length
      = dbPending.transactions.length + 1 ∧
    (∀ e g, (createPaymentLink 1 222 50 g dbPending).2 = Except.error e →
      e = "Payment link creation failed") :=
  createPaymentLink_pending_always_succeeds 1 222 50 dbPending
    orderPendingWithCode rfl rfl

/-- C7 counterexample: when the gateway call fails in `createPaymentLink`, the
claim says the compensation clears the Order's `paymentCode`; in the code the
catch block only marks the Transaction `failed` — after the failing call on
`dbPending`, Order 1 still carries the just-assigned code `"222"`. -/
theorem gateway_failure_keeps_payment_code :
    (createPaymentLink 1 222 50 false dbPending).2 =
      Except.error "Payment link creation failed" ∧
    (lookupTbl (createPaymentLink 1 222 50 false dbPending).1.orders 1).map
        Order.paymentCode = some (some "222") :=
  ⟨rfl, rfl⟩

/-- C7 amended: on gateway failure the compensation marks the just-created
Transaction `failed` but does NOT clear the Order's `paymentCode` (the newly
assigned code stays on the order); the stock is untouched and the order stays
`pending`. -/
theorem createPaymentLink_gateway_failure_spec (orderId orderCode now : Nat)
    (st : DB) (o : Order) (hfound : lookupTbl st.orders orderId = some o)
    (hpending : o.status = OrderStatus.pending)
    (hfresh : lookupTbl st.transactions st.nextId = none) :
    (createPaymentLink orderId orderCode now false st).2 =
      Except.error "Payment link creation failed" ∧
    (lookupTbl (createPaymentLink orderId orderCode now false st).1.transactions
        st.nextId).map Transaction.transactionStatus
      = some TransactionStatus.failed ∧
    (lookupTbl (createPaymentLink orderId orderCode now false st).1.orders
        orderId).map Order.paymentCode = some (some (toString orderCode)) ∧
    (lookupTbl (createPaymentLink orderId orderCode now false st).1.orders
        orderId).map Order.status = some OrderStatus.pending ∧
    (createPaymentLink orderId orderCode now false st).1.flowers = st.flowers := by
  have happ : ∀ t : Transaction,
      lookupTbl (st.transactions ++ [(st.nextId, t)]) st.nextId = some t := by
    intro t
    rw [lookupTbl_append _ _ _ hfresh]
    simp [lookupTbl]
  refine ⟨?_, ?_, ?_, ?_, ?_⟩ <;>
    simp [createPaymentLink, hfound, hpending, lookupTbl_updateTbl, happ]

/-- C7 amended witness: the failing-gateway call on `dbPending` leaves
Transaction 10 `failed`, the code `"222"` still on Order 1, the order
`pending`, and the flowers untouched. -/
theorem createPaymentLink_gateway_failure_spec_witness :
    (createPaymentLink 1 222 50 false dbPending).2 =
      Except.error "Payment link creation failed" ∧
    (lookupTbl (createPaymentLink 1 222 50 false dbPending).1.transactions
        10).map Transaction.transactionStatus = some TransactionStatus.failed ∧
    (lookupTbl (createPaymentLink 1 222 50 false dbPending).1.orders 1).map
        Order.paymentCode = some (some "222") ∧
    (lookupTbl (createPaymentLink 1 222 50 false dbPending).1.orders 1).map
        Order.status = some OrderStatus.pending ∧
    (createPaymentLink 1 222 50 false dbPending).1.flowers = dbPending.flowers :=
  createPaymentLink_gateway_failure_spec 1 222 50 dbPending
    orderPendingWithCode rfl rfl rfl

/-- C9: webhook safety — the signature is verified before any lookup or write
(an invalid signature leaves the state untouched and yields the bounded 400
JSON error), and every processing outcome is surfaced as HTTP 200 or a caught
400 JSON error, never an uncaught exception. -/
theorem webhook_signature_and_error_containment (w : WebhookData) (now : Nat)
    (st : DB) :
    (w.valid = false →
      (webhookRoute w now st).1 = st ∧
      (webhookRoute w now st).2 =
        { statusCode := 400,
          body := WebhookBody.failure "Invalid webhook signature" }) ∧
    ((webhookRoute w now st).2.statusCode = 200 ∨
      (webhookRoute w now st).2.statusCode = 400) := by
  constructor
  · intro hvalid
    constructor <;> simp [webhookRoute, handlePaymentWebhook, hvalid]
  · rcases hcall : handlePaymentWebhook w now st with ⟨st1, r⟩
    cases r <;> simp [webhookRoute, hcall]

/-- C9 witness: the invalid-signature delivery `wInvalid` leaves `dbPaid`
unchanged and is answered with the 400 error body. -/
theorem webhook_signature_and_error_containment_witness :
    (webhookRoute wInvalid 5 dbPaid).1 = dbPaid ∧
    (webhookRoute wInvalid 5 dbPaid).2 =
      { statusCode := 400,
        body := WebhookBody.failure "Invalid webhook signature" } :=
  (webhook_signature_and_error_containment wInvalid 5 dbPaid).1 rfl

/-- C10: a successfully processed webhook reports, in its `status` field, the
Transaction's status as read BEFORE the update was written: the response echoes
the in-memory document fetched by `findById`, while the database receives the
new status (`completed` for PAID, `cancelled` for CANCELLED, `failed`
otherwise). -/
theorem webhook_reports_pre_update_status (w : WebhookData) (now : Nat)
    (st st' : DB) (r : WebhookResult)
    (h : handlePaymentWebhook w now st = (st', Except.ok r)) :
    ∃ oid o tid txn,
      findOrderByPaymentCode st (toString w.orderCode) = some (oid, o) ∧
      o.transactionId = some tid ∧
      lookupTbl st.transactions tid = some txn ∧
      r.status = txn.transactionStatus ∧
      (lookupTbl st'.transactions tid).map Transaction.transactionStatus =
        some (if w.status = "PAID" then TransactionStatus.completed
              else if w.status = "CANCELLED" then TransactionStatus.cancelled
              else TransactionStatus.failed) := by
  unfold handlePaymentWebhook at h
  split at h
  · simp [Prod.mk.injEq] at h
  · split at h
    · simp [Prod.mk.injEq] at h
    · next oid o hfind =>
      split at h
      · simp [Prod.mk.injEq] at h
      · next tid htid =>
        split at h
        · simp [Prod.mk.injEq] at h
        · next txn htxn =>
          refine ⟨oid, o, tid, txn, hfind, htid, htxn, ?_⟩
          split at h
          · next hp =>
            split at h
            · next st1 e hup => simp [Prod.mk.injEq] at h
            · next st1 u hup =>
              have htr : st1.transactions = st.transactions := by
                have hpr := updatePaymentStatus_transactions oid tid now st
                rw [hup] at hpr
                exact hpr
              injection h with hst hr
              injection hr with hpay
              subst hst
              subst hpay
              refine ⟨rfl, ?_⟩
              simp [lookupTbl_updateTbl, htr, htxn, if_pos hp]
          · next hp =>
            injection h with hst hr
            injection hr with hpay
            subst hst
            subst hpay
            refine ⟨rfl, ?_⟩
            simp [lookupTbl_updateTbl, htxn, if_neg hp]

/-- C10 witness: the PAID webhook on `dbAwaitingPayment` (Transaction 1 still
`pending`) stores `completed` but reports the pre-update status `pending`. -/
theorem webhook_reports_pre_update_status_witness :
    ∃ oid o tid txn,
      findOrderByPaymentCode dbAwaitingPayment (toString wPaid.orderCode)
        = some (oid, o) ∧
      o.transactionId = some tid ∧
      lookupTbl dbAwaitingPayment.transactions tid = some txn ∧
      ({ success := true, message := "Webhook processed successfully",
         orderCode := 123, status := TransactionStatus.pending
         : WebhookResult }).status = txn.transactionStatus ∧
      (lookupTbl (handlePaymentWebhook wPaid 200 dbAwaitingPayment).1.transactions
          tid).map Transaction.transactionStatus =
        some (if wPaid.status = "PAID" then TransactionStatus.completed
              else if wPaid.status = "CANCELLED" then TransactionStatus.cancelled
              else TransactionStatus.failed) :=
  webhook_reports_pre_update_status wPaid 200 dbAwaitingPayment
    (handlePaymentWebhook wPaid 200 dbAwaitingPayment).1
    { success := true, message := "Webhook processed successfully",
      orderCode := 123, status := TransactionStatus.pending } rfl

/-- C8: a successful `createOrder` persists an Order whose `totalAmount` is
`Σ (price snapshot × quantity) + shippingFee`, whose status is `pending`, and
decrements each requested flower's stock by exactly the total requested
quantity (flowers not requested are untouched, since their `qtyOf` is 0). -/
theorem createOrder_success_spec (orderData : CreateOrderData)
    (userId now oid : Nat) (st : DB)
    (hfresh : lookupTbl st.orders st.nextId = none)
    (h : (createOrder orderData userId now true st).2 = Except.ok oid) :
    ∃ o : Order,
      lookupTbl (createOrder orderData userId now true st).1.orders oid
        = some o ∧
      o.status = OrderStatus.pending ∧
      o.totalAmount = priceSum st orderData.items + orderData.shippingFee ∧
      o.shippingFee = orderData.shippingFee ∧
      ∀ fid, lookupTbl (createOrder orderData userId now true st).1.flowers fid =
        (lookupTbl st.flowers fid).map
          (fun f => { f with stock := f.stock - qtyOf orderData.items fid }) := by
  cases hr : reserveItems orderData.items st 0 [] with
  | error e =>
    simp [createOrder, hr] at h
  | ok trip =>
    obtain ⟨stW, tot, acc⟩ := trip
    obtain ⟨ho, hoi, htr, hni, htot, hfl⟩ := reserveItems_ok_spec _ _ _ _ _ _ _ hr
    simp only [createOrder, hr, if_pos rfl] at h ⊢
    have hoid : oid = stW.nextId := by
      injection h with h1
      exact h1.symm
    subst hoid
    refine ⟨{ accountId := userId, totalAmount := tot + orderData.shippingFee,
              shippingFee := orderData.shippingFee, orderAt := now,
              paidAt := none, status := OrderStatus.pending,
              addressShip := orderData.addressShip, transactionId := none,
              paymentCode := none }, ?_, rfl, ?_, rfl, ?_⟩
    · show lookupTbl (stW.orders ++ _) stW.nextId = _
      rw [ho, hni, lookupTbl_append _ _ _ hfresh]
      simp [lookupTbl]
    · simp [htot]
    · intro fid
      exact hfl fid

/-- C8 witness: ordering 2 units of flower 1 (price 70000, stock 5) with
shipping fee 10000 yields order 10 with `totalAmount = 150000`, status
`pending`, and flower 1 stock decremented from 5 to 3. -/
theorem createOrder_success_spec_witness :
    lookupTbl dbStock.orders dbStock.nextId = none ∧
    (createOrder orderDataOk 7 100 true dbStock).2 = Except.ok 10 ∧
    priceSum dbStock orderDataOk.items + orderDataOk.shippingFee = 150000 ∧
    (∃ o : Order,
      lookupTbl (createOrder orderDataOk 7 100 true dbStock).1.orders 10
        = some o ∧
      o.status = OrderStatus.pending ∧
      o.totalAmount = priceSum dbStock orderDataOk.items
        + orderDataOk.shippingFee ∧
      o.shippingFee = orderDataOk.shippingFee ∧
      ∀ fid, lookupTbl (createOrder orderDataOk 7 100 true dbStock).1.flowers fid =
        (lookupTbl dbStock.flowers fid).map
          (fun f => { f with stock := f.stock - qtyOf orderDataOk.items fid })) :=
  ⟨rfl, rfl, rfl,
    createOrder_success_spec orderDataOk 7 100 10 dbStock rfl rfl⟩

/-- C5 counterexample: the claim says every order the reaper cancels still had
status `pending` at the time of cancellation, because the `status = pending`
condition is enforced in the update itself. The reaper's `find` and its update
loop are separate database operations, and `cancelExpiredOrder` uses a plain
`findByIdAndUpdate` with no status predicate: if a PAID reconcile lands
between them (Order 1 becomes `paid`), the tick still overwrites the order to
`cancelled`. -/
theorem reaper_cancels_order_paid_after_find :
    (lookupTbl (markOrderOnePaid dbExpired).orders 1).map Order.status
      = some OrderStatus.paid ∧
    (lookupTbl (checkAndCancelExpiredPayments 700000 markOrderOnePaid
        dbExpired).orders 1).map Order.status = some OrderStatus.cancelled :=
  ⟨rfl, rfl⟩

/-- C5 amended: within one atomic tick (no interleaved writes), an order is set
to `cancelled` exactly when the selection query matched it — status `pending`,
a non-null `paymentCode`, and `orderAt` older than the 10-minute threshold —
and all other orders keep their status; but the `status = pending` condition
lives only in that selection query: the per-order update is unconditional, so
whatever row is current under the captured id is overwritten to `cancelled`. -/
theorem reaper_tick_spec (now : Nat) (st : DB)
    (hnd : (st.orders.map Prod.fst).Nodup) :
    (∀ oid o, lookupTbl st.orders oid = some o →
      lookupTbl (checkAndCancelExpiredPayments now id st).orders oid =
        some (if isExpired (now - paymentTimeoutMs) o
              then { o with status := OrderStatus.cancelled } else o)) ∧
    (∀ (st2 : DB) (oid : Nat) (tid : Option Nat),
      lookupTbl (cancelExpiredOrder oid tid st2).orders oid =
        (lookupTbl st2.orders oid).map
          (fun o => { o with status := OrderStatus.cancelled })) := by
  constructor
  · intro oid o hlook
    have hmem : oid ∈ (st.orders.filter
        (fun p => isExpired (now - paymentTimeoutMs) p.2)).map Prod.fst ↔
        isExpired (now - paymentTimeoutMs) o = true := by
      constructor
      · intro hm
        obtain ⟨q, hq, hq1⟩ := List.mem_map.mp hm
        obtain ⟨hqmem, hqexp⟩ := List.mem_filter.mp hq
        have hpair : (oid, q.2) ∈ st.orders := by
          have : q = (oid, q.2) := by
            rw [← hq1]
          rw [← this]
          exact hqmem
        have := lookupTbl_eq_of_mem_nodup st.orders oid o q.2 hnd hpair hlook
        rw [← this]
        exact hqexp
      · intro hexp
        refine List.mem_map.mpr ⟨(oid, o), ?_, rfl⟩
        exact List.mem_filter.mpr ⟨mem_of_lookupTbl _ _ _ hlook, hexp⟩
    unfold checkAndCancelExpiredPayments
    rw [foldl_cancel_orders]
    by_cases hexp : isExpired (now - paymentTimeoutMs) o = true
    · rw [if_pos (hmem.mpr hexp), if_pos hexp]
      simp [id, hlook]
    · rw [if_neg (fun hc => hexp (hmem.mp hc)), if_neg hexp]
      simp [id, hlook]
  · intro st2 oid tid
    rw [cancelExpiredOrder_orders]
    simp

/-- C5 amended witness: the atomic tick at `now = 700000` cancels the expired
pending Order 1 of `dbExpired`, and `cancelExpiredOrder` overwrites Order 1
of `dbPaid` (status `paid`) to `cancelled` despite its non-pending status. -/
theorem reaper_tick_spec_witness :
    lookupTbl (checkAndCancelExpiredPayments 700000 id dbExpired).orders 1 =
      some (if isExpired (700000 - paymentTimeoutMs) orderExpired
            then { orderExpired with status := OrderStatus.cancelled }
            else orderExpired) ∧
    lookupTbl (cancelExpiredOrder 1 none dbPaid).orders 1 =
      (lookupTbl dbPaid.orders 1).map
        (fun o => { o with status := OrderStatus.cancelled }) :=
  ⟨(reaper_tick_spec 700000 dbExpired (by decide)).1 1 orderExpired rfl,
   (reaper_tick_spec 700000 dbExpired (by decide)).2 dbPaid 1 none⟩

end FlowerShop
